import Mathlib

/- Verification development for the story generation pipeline of the app:
   the domain model (models.py), the content safety filter
   (services/content_filter.py) and the story generation orchestrator
   (services/story_generator.py).  Python strings are modelled as Lean
   `String`, with all computation performed on the underlying `List Char`;
   machine-level details (uuid generation, wall-clock time, the OpenAI
   client) are passed in explicitly. -/

/-- ASCII whitespace as recognised by the Python str.strip, str.split and the
regex class backslash-s. -/
def pyIsSpace (c : Char) : Bool :=
  c = ' ' || c = '\t' || c = '\n' || c = '\r' || c = '\x0c' || c = '\x0b'

/-- Word characters: the regex class backslash-w restricted to ASCII. -/
def isWordChar (c : Char) : Bool :=
  c.isAlpha || c.isDigit || c = '_'

/-- Python str.strip on a character list: drop leading and trailing
whitespace. -/
def stripL (l : List Char) : List Char :=
  ((l.dropWhile pyIsSpace).reverse.dropWhile pyIsSpace).reverse

/-- Python str.strip. -/
def pyStrip (s : String) : String := ⟨stripL s.data⟩

/-- Python str.lower restricted to ASCII. -/
def pyLower (s : String) : String := ⟨s.data.map Char.toLower⟩

/-- Helper for `runsOf`: split into maximal runs of characters satisfying
`keep`, carrying the (reversed) run being accumulated. -/
def runsAux (keep : Char → Bool) : List Char → List Char → List (List Char)
  | [], acc => if acc.isEmpty then [] else [acc.reverse]
  | c :: rest, acc =>
    if keep c then runsAux keep rest (c :: acc)
    else if acc.isEmpty then runsAux keep rest []
    else acc.reverse :: runsAux keep rest []

/-- The maximal non-empty runs of characters satisfying `keep`. -/
def runsOf (keep : Char → Bool) (l : List Char) : List (List Char) :=
  runsAux keep l []

/-- Python str.split() with no arguments: the maximal runs of
non-whitespace characters. -/
def pyWords (s : String) : List (List Char) :=
  runsOf (fun c => !pyIsSpace c) s.data

/-- Python len(s.split()): the number of whitespace-separated words. -/
def wordCount (s : String) : Nat := (pyWords s).length

/-- Substring test on character lists: the Python `in` operator on str. -/
def isSubLst : List Char → List Char → Bool
  | needle, [] => needle.isEmpty
  | needle, c :: rest => needle.isPrefixOf (c :: rest) || isSubLst needle rest

/-- Python `needle in hay` for strings. -/
def isSubstr (needle hay : String) : Bool := isSubLst needle.data hay.data

namespace ContentFilter

/-- The banned-term set from ContentFilter.__init__ (content_filter.py
lines 15-33), listed in source order. -/
def inappropriate_keywords : List String :=
  ["scary", "violent", "death", "die", "kill", "hurt", "blood", "pain",
   "weapon", "gun", "knife", "sword", "fight", "battle", "war", "attack",
   "angry", "hate", "evil", "monster", "ghost", "zombie", "demon",
   "nightmare", "terror", "fear", "afraid", "scream", "cry", "sad",
   "alcohol", "beer", "wine", "drunk", "smoke", "cigarette", "drug",
   "money", "rich", "poor", "work", "job", "boss", "fire", "fired",
   "stupid", "dumb", "idiot", "fool", "loser", "ugly", "fat", "skinny",
   "shut up", "go away", "i hate", "you suck", "bad", "worst",
   "shark", "snake", "spider", "wolf", "bear", "lion", "tiger",
   "crocodile", "alligator", "scorpion", "bat", "rat", "mouse"]

/-- The positivity word set shared by validate_story_content and
get_content_safety_score (content_filter.py lines 121-122). -/
def positive_words : List String :=
  ["happy", "joy", "smile", "laugh", "love", "friend", "help",
   "kind", "nice", "good", "wonderful", "amazing", "great", "fun"]

/-- The closed word list of the third complexity regex (complex
conjunctions). -/
def complex_conjunctions : List String :=
  ["however", "therefore", "nevertheless", "furthermore", "moreover",
   "consequently"]

/-- The closed word list of the fourth complexity regex (complex
conditional words). -/
def complex_conditionals : List String :=
  ["although", "whereas", "despite", "unless", "provided", "assuming"]

/-- The loop body of validate_keywords for a single keyword
(content_filter.py lines 82-94): clean the keyword by lower-casing and
stripping, skip it when blank, reject an exact banned match or any banned
term occurring as a substring. -/
def keyword_ok (keyword : String) : Bool :=
  let keyword_clean := pyStrip (pyLower keyword)
  if keyword_clean = "" then true
  else if inappropriate_keywords.contains keyword_clean then false
  else !(inappropriate_keywords.any fun inappropriate =>
    isSubstr inappropriate keyword_clean)

/-- ContentFilter.validate_keywords (content_filter.py lines 74-96): true
iff every keyword individually passes `keyword_ok`; the early `return
False` of the source loop is the failure of `List.all`. -/
def validate_keywords (keywords : List String) : Bool :=
  keywords.all keyword_ok

/-- The complexity test of validate_story_content (content_filter.py lines
114-117): re.search of each complex_sentence_patterns entry, in order.
The regex `\b\w{12,}\b` searches (case-insensitively, a no-op here) for a
maximal word-character run of length at least 12; `[;:]` for a semicolon
or colon anywhere; the two word-alternation regexes for a whole word of
the closed lists, case-insensitively. -/
def has_complex_pattern (content : String) : Bool :=
  let toks := runsOf isWordChar content.data
  toks.any (fun t => 12 ≤ t.length)
  || content.data.any (fun c => c = ';' || c = ':')
  || toks.any (fun t => complex_conjunctions.contains ⟨t.map Char.toLower⟩)
  || toks.any (fun t => complex_conditionals.contains ⟨t.map Char.toLower⟩)

/-- ContentFilter.validate_story_content (content_filter.py lines 98-128):
reject blank content, any banned term as a substring of the lower-cased
text, any complexity pattern match, or the absence of every positivity
word; otherwise accept. -/
def validate_story_content (content : String) : Bool :=
  if content = "" || pyStrip content = "" then false
  else
    let content_lower := pyLower content
    if inappropriate_keywords.any (fun w => isSubstr w content_lower) then
      false
    else if has_complex_pattern content then false
    else if positive_words.any (fun w => isSubstr w content_lower) then true
    else false

/-- ContentFilter.filter_inappropriate_keywords (content_filter.py lines
192-204): keep the stripped form of each keyword that is non-blank and
individually passes validate_keywords. -/
def filter_inappropriate_keywords : List String → List String
  | [] => []
  | keyword :: rest =>
    let keyword_clean := pyStrip keyword
    if keyword_clean ≠ "" && validate_keywords [keyword_clean] then
      keyword_clean :: filter_inappropriate_keywords rest
    else
      filter_inappropriate_keywords rest

end ContentFilter

/-- Character (models.py lines 12-35): the raw dataclass carrier. -/
structure Character where
  name : String
  pronouns : String
deriving DecidableEq, Repr

namespace Character

/-- Character.validate_name (models.py lines 25-30): the name is a
non-empty string and, once stripped, matches the anchored regex
`^[A-Za-z\s]+$` (so it is non-empty and made only of ASCII letters and
whitespace) and has positive length.  The isinstance check of the source
cannot fail in this embedding. -/
def validate_name (c : Character) : Bool :=
  if c.name = "" then false
  else
    let t := pyStrip c.name
    (!t.data.isEmpty && t.data.all fun ch => ch.isAlpha || pyIsSpace ch)
      && t.data.length > 0

/-- The allowed pronoun options (models.py line 34). -/
def valid_pronoun_options : List String := ["he/him", "she/her", "they/them"]

/-- Character.validate_pronouns (models.py lines 32-35). -/
def validate_pronouns (c : Character) : Bool :=
  valid_pronoun_options.contains c.pronouns

/-- Character construction including __post_init__ (models.py lines
18-23): a dataclass instance is produced only when both validations pass;
otherwise a ValueError is raised, modelled by `Except.error` carrying the
message. -/
def construct (name pronouns : String) : Except String Character :=
  let c : Character := ⟨name, pronouns⟩
  if !c.validate_name then
    .error s!"Invalid character name: \x27{name}\x27. Names must contain only letters and spaces."
  else if !c.validate_pronouns then
    .error s!"Invalid pronouns: \x27{pronouns}\x27. Must be one of: he/him, she/her, they/them"
  else
    .ok c

end Character

/-- Modelled from the spec: the age_band enumeration (3-4, 5-6, 7-8,
9-10) of section 3.  The `age_group` request field is used throughout
services/story_generator.py and the test suite but is missing from the
StoryRequest revision recorded in src/models.py. -/
inductive AgeGroup where
  | a3_4
  | a5_6
  | a7_8
  | a9_10
deriving DecidableEq, Repr

/-- Modelled from the spec: the length_tier enumeration (short, medium,
long) of section 3; like `age_group`, the field is absent from the
src/models.py revision of StoryRequest. -/
inductive StoryLength where
  | short
  | medium
  | long
deriving DecidableEq, Repr

/-- The validation error messages produced by StoryRequest.validate
(models.py lines 46-78), one constructor per append site, carrying the
interpolated data; `render` below recovers the message text. -/
inductive VError where
  | at_least_one_character
  | max_five_characters
  | invalid_topic (topic : String)
  | keyword_count (n : Nat)
  | empty_keyword (i : Nat)
deriving DecidableEq, Repr

/-- StoryRequest (models.py lines 38-44) extended with the `age_group` and
`story_length` fields that the orchestrator and tests require (modelled
from the spec, section 3). -/
structure StoryRequest where
  characters : List Character
  topic : String
  keywords : List String
  include_image : Bool := false
  age_group : AgeGroup
  story_length : StoryLength
deriving DecidableEq, Repr

namespace StoryRequest

/-- The allowed topics (models.py line 65). -/
def valid_topics : List String := ["space", "community", "dragons", "fairies"]

/-- StoryRequest.validate (models.py lines 46-78).  The per-character loop
of the source (lines 57-62) wraps `pass` in try/except and therefore
contributes no errors; it is omitted.  The remaining four checks append in
source order. -/
def validate (r : StoryRequest) : List VError :=
  (if r.characters.isEmpty then [VError.at_least_one_character]
   else if r.characters.length > 5 then [VError.max_five_characters]
   else [])
  ++
  (if !(valid_topics.contains r.topic) then [VError.invalid_topic r.topic]
   else [])
  ++
  (if !(r.keywords.length = 3 || r.keywords.length = 5) then
     [VError.keyword_count r.keywords.length]
   else [])
  ++
  (r.keywords.enum.filterMap fun p =>
    if p.2 = "" || pyStrip p.2 = "" then some (VError.empty_keyword (p.1 + 1))
    else none)

/-- StoryRequest.is_valid (models.py lines 80-82). -/
def is_valid (r : StoryRequest) : Bool := r.validate.length = 0

/-- Modelled from the spec: GenerationRequest.target_word_count_range
(section 4.1), a pure 4 x 3 lookup table whose defining models.py revision
is absent from src/ (services/story_generator.py and every test call it).
The spec fixes its shape — each entry a (min, max) pair with min < max,
monotonically increasing across length tiers within an age band, generally
increasing across age bands — and these concrete values realise it. -/
def get_target_word_count_range (r : StoryRequest) : Nat × Nat :=
  match r.age_group, r.story_length with
  | .a3_4, .short => (50, 100)
  | .a3_4, .medium => (100, 200)
  | .a3_4, .long => (200, 300)
  | .a5_6, .short => (100, 200)
  | .a5_6, .medium => (200, 400)
  | .a5_6, .long => (400, 600)
  | .a7_8, .short => (150, 300)
  | .a7_8, .medium => (300, 500)
  | .a7_8, .long => (500, 700)
  | .a9_10, .short => (200, 350)
  | .a9_10, .medium => (350, 550)
  | .a9_10, .long => (550, 800)

end StoryRequest

/-- GeneratedStory (models.py lines 85-96) extended with the artifact
fields the factory call of the orchestrator supplies (age_group, story_length,
target_word_range and the three adventure-item roles; modelled from the
spec, section 3).  `created_at` is an abstract timestamp. -/
structure GeneratedStory where
  id : String
  title : String
  content : String
  moral : String
  characters : List Character
  topic : String
  image_url : Option String
  created_at : Nat
  word_count : Nat
  age_group : AgeGroup
  story_length : StoryLength
  target_word_range : Nat × Nat
  magic_tool : String
  adventure_pack : String
  animal_friend : String
deriving DecidableEq, Repr

/-- GeneratedStory.create (models.py lines 98-115): the factory stamps a
fresh id (uuid4, passed explicitly here) and the current timestamp, and
always recomputes word_count as `len(content.split()) if content else 0`;
no word_count is accepted from the caller. -/
def GeneratedStory.create (fresh_id : String) (now : Nat)
    (title content moral : String) (characters : List Character)
    (topic : String) (age_group : AgeGroup) (story_length : StoryLength)
    (target_word_range : Nat × Nat) (image_url : Option String)
    (magic_tool adventure_pack animal_friend : String) : GeneratedStory :=
  { id := fresh_id
    title := title
    content := content
    moral := moral
    characters := characters
    topic := topic
    image_url := image_url
    created_at := now
    word_count := if content = "" then 0 else wordCount content
    age_group := age_group
    story_length := story_length
    target_word_range := target_word_range
    magic_tool := magic_tool
    adventure_pack := adventure_pack
    animal_friend := animal_friend }

/-- Rendering of the age-band enumeration to the strings the source code
uses. -/
def AgeGroup.toStr : AgeGroup → String
  | .a3_4 => "3-4"
  | .a5_6 => "5-6"
  | .a7_8 => "7-8"
  | .a9_10 => "9-10"

/-- Rendering of the length-tier enumeration. -/
def StoryLength.toStr : StoryLength → String
  | .short => "short"
  | .medium => "medium"
  | .long => "long"

/-- Python line.startswith(pre). -/
def pyStartsWith (s pre : String) : Bool := pre.data.isPrefixOf s.data

/-- Helper for `pyReplace`: fuel-indexed replacement of every
non-overlapping occurrence of `pat`, left to right. -/
def replaceAllAux (pat rep : List Char) : Nat → List Char → List Char
  | _, [] => []
  | 0, l => l
  | Nat.succ fuel, c :: rest =>
    if pat ≠ [] && pat.isPrefixOf (c :: rest) then
      rep ++ replaceAllAux pat rep fuel ((c :: rest).drop pat.length)
    else
      c :: replaceAllAux pat rep fuel rest

/-- Python s.replace(pat, rep): replace every occurrence. -/
def pyReplace (s pat rep : String) : String :=
  ⟨replaceAllAux pat.data rep.data s.data.length s.data⟩

/-- Helper for `pySplitOn`. -/
def splitOnCharAux (sep : Char) : List Char → List Char → List (List Char)
  | [], acc => [acc.reverse]
  | c :: rest, acc =>
    if c = sep then acc.reverse :: splitOnCharAux sep rest []
    else splitOnCharAux sep rest (c :: acc)

/-- Python s.split(sep) for a single-character separator: keeps empty
pieces, and the split of the empty string is one empty piece. -/
def pySplitOn (s : String) (sep : Char) : List String :=
  (splitOnCharAux sep s.data []).map fun l => ⟨l⟩

/-- Python ", ".join and friends. -/
def joinSep (sep : String) : List String → String
  | [] => ""
  | [x] => x
  | x :: xs => x ++ sep ++ joinSep sep xs

/-- Python str.title() restricted to ASCII: upper-case every letter that
follows a non-letter, lower-case every other letter. -/
def pyTitleAux : Bool → List Char → List Char
  | _, [] => []
  | prevAlpha, c :: rest =>
    if c.isAlpha then
      (if prevAlpha then c.toLower else c.toUpper) :: pyTitleAux true rest
    else
      c :: pyTitleAux false rest

/-- Python str.title(). -/
def pyTitle (s : String) : String := ⟨pyTitleAux false s.data⟩

namespace StoryGenerator

/-- StoryGenerator._get_vocabulary_level (story_generator.py lines
116-124); the dict default "elementary" is unreachable over the
enumeration. -/
def get_vocabulary_level : AgeGroup → String
  | .a3_4 => "simple"
  | .a5_6 => "elementary"
  | .a7_8 => "intermediate"
  | .a9_10 => "advanced"

/-- StoryGenerator._get_vocabulary_guidelines (story_generator.py lines
126-134). -/
def get_vocabulary_guidelines : AgeGroup → String
  | .a3_4 => "- Use only simple 1-2 syllable words (cat, dog, run, big, happy, sad, go, see, get, put, help, good, bad, nice, fun)\n- Avoid complex words like \x27organized\x27, \x27elderly\x27, \x27neighborhood\x27, \x27discovered\x27, \x27realized\x27\n- Use basic sentence structure: Subject + Verb + Object (Oliver saw Mrs. Rose)\n- Use simple connecting words: and, but, so, then"
  | .a5_6 => "- Use mostly 1-3 syllable words with some 4-syllable words\n- Use compound sentences occasionally\n- Include some descriptive words but keep them simple\n- Avoid abstract concepts"
  | .a7_8 => "- Use varied vocabulary including some 5+ syllable words\n- Use varied sentence structures\n- Include more descriptive and emotional language\n- Can introduce some abstract concepts"
  | .a9_10 => "- Use advanced vocabulary while keeping themes age-appropriate\n- Use complex sentence structures\n- Include sophisticated concepts explained simply\n- Can use more nuanced emotional language"

/-- StoryGenerator._get_pronoun_info (story_generator.py lines 136-143). -/
def get_pronoun_info (pronouns : String) : String :=
  if pronouns = "he/him" then "he, him, his"
  else if pronouns = "she/her" then "she, her, hers"
  else if pronouns = "they/them" then "they, them, their"
  else pronouns

/-- The topic-context table of _create_story_prompt (story_generator.py
lines 69-76); Python dict.get with the topic itself as default. -/
def topic_context_of (topic : String) : String :=
  if topic = "space" then
    "space exploration, planets, astronauts, rockets, stars, or cosmic adventures"
  else if topic = "community" then
    "helping others, friendship, neighborhood activities, teamwork, or community service"
  else if topic = "dragons" then
    "friendly dragons, magical adventures, fantasy worlds, or mythical creatures"
  else if topic = "fairies" then
    "fairies, magic, enchanted settings, fairy gardens, or magical forests"
  else topic

/-- StoryGenerator._create_story_prompt (story_generator.py lines 47-114):
the deterministic prompt text, assembled exactly as the source f-string. -/
def create_story_prompt (request : StoryRequest) : String :=
  let character_descriptions := request.characters.map fun char =>
    let nm := char.name
    let pr := char.pronouns
    let pronoun_info := get_pronoun_info char.pronouns
    s!"{nm} (use {pr} pronouns - {pronoun_info})"
  let characters_text := joinSep ", " character_descriptions
  let magic_tool := request.keywords.getD 0 "wand"
  let adventure_pack := request.keywords.getD 1 "backpack"
  let animal_friend := request.keywords.getD 2 "wolf"
  let range := request.get_target_word_count_range
  let min_words := range.1
  let max_words := range.2
  let vocabulary_level := get_vocabulary_level request.age_group
  let topic := request.topic
  let topic_context := topic_context_of request.topic
  let age_group := request.age_group.toStr
  let story_length := request.story_length.toStr
  let guidelines := get_vocabulary_guidelines request.age_group
  s!"Write a children\x27s story for ages {age_group} with the following requirements:\n\n"
  ++ s!"CHARACTERS: {characters_text}\n"
  ++ "- Make ALL characters protagonists or key characters in the story\n"
  ++ "- Use the correct pronouns consistently throughout the story\n"
  ++ "- Include all character names prominently in the story\n\n"
  ++ s!"TOPIC: {topic} - incorporate themes related to {topic_context}\n\n"
  ++ "ADVENTURE ITEMS: Include these items naturally in the story:\n"
  ++ s!"- Magic Tool: {magic_tool} (a magical item that helps solve problems)\n"
  ++ s!"- Adventure Pack: {adventure_pack} (something the character carries or wears)\n"
  ++ s!"- Animal Friend: {animal_friend} (a loyal companion who helps on the journey)\n\n"
  ++ "STORY REQUIREMENTS:\n"
  ++ s!"- Length: {min_words}-{max_words} words (this is {story_length} length for ages {age_group})\n"
  ++ "- Include exactly ONE clear moral or positive lesson\n"
  ++ s!"- Use {vocabulary_level} vocabulary appropriate for ages {age_group}\n"
  ++ "- Follow a clear beginning, middle, and end structure\n"
  ++ "- For ages 3-4: Use VERY SHORT paragraphs (1-2 sentences each) with lots of line breaks\n"
  ++ "- For ages 5-6: Use SHORT paragraphs (2-3 sentences each) with clear line breaks\n"
  ++ "- For ages 7+: Use paragraphs (2-4 sentences each) with line breaks between paragraphs\n"
  ++ "- Add line breaks between paragraphs to make it easier for children to read\n"
  ++ "- Maintain positive, uplifting themes throughout\n"
  ++ "- Avoid scary, violent, or inappropriate content\n"
  ++ "- Make the moral lesson naturally integrated into the narrative\n"
  ++ "- Show how the adventure items and animal friend help the characters succeed\n\n"
  ++ s!"VOCABULARY LEVEL: {vocabulary_level}\n"
  ++ s!"{guidelines}\n\n"
  ++ "Please format the response as:\n"
  ++ "TITLE: [Story Title]\n"
  ++ "STORY: [The complete story]\n"
  ++ "MORAL: [The moral lesson in one clear sentence]"

end StoryGenerator

namespace StoryGenerator

/-- The section marker last seen by the response-parsing loop. -/
inductive RSection where
  | sec_title
  | sec_story
  | sec_moral
deriving DecidableEq, Repr

/-- The mutable state of the _parse_story_response loop (story_generator.py
lines 149-154). -/
structure ParseAcc where
  title : String
  moral : String
  story_lines : List String
  current_section : Option RSection
deriving Repr

/-- One iteration of the _parse_story_response loop (story_generator.py
lines 156-170). -/
def parse_line (st : ParseAcc) (raw : String) : ParseAcc :=
  let line := pyStrip raw
  if pyStartsWith line "TITLE:" then
    { st with title := pyStrip (pyReplace line "TITLE:" ""),
              current_section := some .sec_title }
  else if pyStartsWith line "STORY:" then
    let story_content := pyStrip (pyReplace line "STORY:" "")
    let new_lines :=
      if story_content ≠ "" then st.story_lines ++ [story_content]
      else st.story_lines
    { st with story_lines := new_lines,
              current_section := some .sec_story }
  else if pyStartsWith line "MORAL:" then
    { st with moral := pyStrip (pyReplace line "MORAL:" ""),
              current_section := some .sec_moral }
  else if st.current_section = some RSection.sec_story ∧ line ≠ "" then
    { st with story_lines := st.story_lines ++ [line] }
  else st

/-- The moral-indicator word list of the heuristic fallback
(story_generator.py line 193). -/
def moral_indicator_words : List String :=
  ["moral", "lesson", "learned", "remember", "important"]

/-- StoryGenerator._parse_story_response (story_generator.py lines
145-200): structured extraction of title / story / moral by the three
format markers, then the heuristic fallback when the structured form is
absent, including last-sentence moral extraction and the generic default
moral. -/
def parse_story_response (response_text : String) : String × String × String :=
  let lines := pySplitOn (pyStrip response_text) '\n'
  let st := lines.foldl parse_line
    { title := "", moral := "", story_lines := [], current_section := none }
  let story0 := pyStrip (joinSep " " st.story_lines)
  if st.title = "" ∨ story0 = "" then
    let full_text := pyStrip response_text
    let ft_lines := pySplitOn full_text '\n'
    let first_line := pyStrip (ft_lines.headD "")
    let lfl := pyLower first_line
    let pair :=
      if decide (first_line.data.length < 100) &&
          !(pyStartsWith lfl "once" || pyStartsWith lfl "in" ||
            pyStartsWith lfl "there") then
        (first_line, pyStrip (joinSep "\n" ft_lines.tail))
      else
        ("Your Amazing Adventure", full_text)
    let moral1 :=
      if st.moral = "" then
        let sentences := pySplitOn pair.2 '.'
        match sentences.reverse.findSome? (fun sentence =>
          let sv := pyStrip sentence
          if moral_indicator_words.any (fun w => isSubstr w (pyLower sv)) then
            some (sv ++ ".")
          else none) with
        | some m => m
        | none => "Always be kind and help others."
      else st.moral
    (pyStrip pair.1, pyStrip pair.2, pyStrip moral1)
  else
    (pyStrip st.title, pyStrip story0, pyStrip st.moral)

/-- StoryGenerator._validate_story_content (story_generator.py lines
202-225): the post-generation check.  The source computes `flexibility =
int((max_words - min_words) * 0.2)`; for the integer magnitudes involved
the float product truncates to exactly (max_words - min_words) / 5, used
here.  `max(min_words - flexibility, min_words // 2)` is computed on Nat:
truncated subtraction agrees with the Python value because the second max
argument is non-negative. -/
def validate_story_content (story : String) (request : StoryRequest) : Bool :=
  if story = "" then false
  else
    let word_count := wordCount story
    let range := request.get_target_word_count_range
    let min_words := range.1
    let max_words := range.2
    let flexibility := (max_words - min_words) / 5
    let flexible_min := Nat.max (min_words - flexibility) (min_words / 2)
    let flexible_max := max_words + flexibility
    if word_count < flexible_min || word_count > flexible_max then false
    else
      let story_lower := pyLower story
      request.characters.all fun character =>
        isSubstr (pyLower character.name) story_lower

end StoryGenerator

namespace StoryGenerator

/-- StoryGenerator._generate_placeholder_story (story_generator.py lines
323-372): deterministic topic-keyed template story.  An empty character
list would make `character_names[0]` raise IndexError, modelled as `none`;
every other input yields an artifact.  The fresh uuid and timestamp are
passed in explicitly. -/
def generate_placeholder_story (fresh_id : String) (now : Nat)
    (request : StoryRequest) : Option GeneratedStory :=
  let character_names := request.characters.map Character.name
  match character_names with
  | [] => none
  | first_name :: rest_names =>
    let all_names := first_name :: rest_names
    let names_text :=
      if all_names.length > 1 then
        joinSep ", " all_names.dropLast ++ " and " ++
          (all_names.getLast?.getD "")
      else first_name
    let range := request.get_target_word_count_range
    let min_words := range.1
    let magic_tool := request.keywords.getD 0 "wand"
    let adventure_pack := request.keywords.getD 1 "backpack"
    let animal_friend := request.keywords.getD 2 "wolf"
    let base_content :=
      if request.topic = "space" then
        s!"Once upon a time, {names_text} went to space. They flew to a magic planet with pretty colors.\n\nThey took their {magic_tool} with them. They wore their {adventure_pack} too.\n\nTheir friend was a nice {animal_friend}. The {animal_friend} helped them fly through the stars.\n\nThey met some space friends. The space friends needed help with their star machine.\n\nUsing their {magic_tool}, they helped fix it. Their {animal_friend} friend had good ideas.\n\nThey made the machine work again. Now the sky had lots of pretty stars!\n\nThe space friends were so happy. They gave {names_text} special star stickers.\n\nWhen they came home, they felt good. They learned that helping others makes everyone happy."
      else if request.topic = "community" then
        s!"Oliver lived in a nice town. Oliver saw Mrs. Rose in her yard.\n\nMrs. Rose was sad. Her garden had too many weeds.\n\nShe could not fix it by herself. She needed help.\n\nOliver got his magic {magic_tool}. He put on his special {adventure_pack}.\n\nHe called his {animal_friend} friend to come help. They had a good idea.\n\nThey asked all the kids in town to help. Everyone wanted to help Mrs. Rose!\n\nThe {magic_tool} helped cut the weeds. The {adventure_pack} held all the seeds.\n\nThe {animal_friend} showed them where to plant flowers. It was like a fun game!\n\nWhen Mrs. Rose saw her pretty garden, she was so happy. She gave everyone cookies and juice.\n\nOliver learned something good. When friends work together, they can do anything."
      else if request.topic = "dragons" then
        s!"In a big forest, {names_text} met a dragon named Sparkle. Sparkle looked very sad.\n\nSparkle could not make fire anymore. This made him feel bad.\n\nHe used his fire to light up lamps. The lamps helped animals find their way home.\n\nThey had their strong {magic_tool}. They wore their safe {adventure_pack}.\n\nTheir {animal_friend} friend came too. {names_text} wanted to help Sparkle.\n\nThey went to look for a magic flower. The flower could give Sparkle his fire back!\n\nTheir {animal_friend} friend found the right path. Their {magic_tool} helped them solve puzzles.\n\nTheir {adventure_pack} kept them safe from thorns. They helped other animals on the way.\n\nThey found the flower in a cave. It was so pretty and bright!\n\nWhen Sparkle ate the flower, his fire came back. The forest had warm light again.\n\nAll the animals cheered. The lamps lit up all the paths. Sparkle was so happy!"
      else if request.topic = "fairies" then
        s!"Behind a big tree, {names_text} found a fairy garden. But all the flowers looked sick!\n\nThe magic water had stopped working. The fairy queen was very sad.\n\nThey brought their magic {magic_tool}. They had their special {adventure_pack} too.\n\nTheir {animal_friend} friend came with them. The {animal_friend} could talk to all the garden animals!\n\nThe fairy queen told them what was wrong. The water needed happy laughs from nice kids.\n\n{names_text} had a fun idea. They would play games with all the fairies!\n\nThey used their {magic_tool} to make pretty lights. Their {adventure_pack} had treats for everyone.\n\nTheir {animal_friend} friend told funny jokes. All the fairies laughed and giggled!\n\nWhen they all laughed together, something magic happened. The water started to work again!\n\nThe flowers became pretty and bright. The fairies were so happy!\n\nThey gave {names_text} a special gift. They would always find magic when they are kind to others."
      else
        s!"{names_text} had an amazing adventure with their {magic_tool}, {adventure_pack}, and {animal_friend} friend, learning that kindness and friendship are the most important things in the world."
    let content :=
      if wordCount base_content < min_words then
        base_content ++
          s!"\n\nThey smiled and laughed together. They shared their joy with everyone.\n\nThey learned good things. They learned about being friends and helping others.\n\nTheir {magic_tool} helped them be brave. Their {adventure_pack} helped them be ready.\n\nTheir {animal_friend} friend showed them how to be loyal. It was the best day ever!"
      else base_content
    let topic_title := pyTitle request.topic
    some (GeneratedStory.create fresh_id now
      (s!"{names_text}\x27s Amazing {topic_title} Adventure")
      content
      "Helping others and working together makes the world a better place."
      request.characters request.topic request.age_group request.story_length
      range none magic_tool adventure_pack animal_friend)

end StoryGenerator

/-- The failure modes of generate_story: the explicit ValueError on an
invalid request (carrying every collected validation error), and an
uncaught internal exception (only reachable with an empty character list,
which a valid request excludes). -/
inductive GenError where
  | invalid_request : List VError → GenError
  | internal_error : String → GenError
deriving DecidableEq, Repr

namespace StoryGenerator

/-- The bounded retry loop of generate_story (story_generator.py lines
248-273): up to max_retries = 2 additional attempts, three calls total,
returning the first success or the last error (which the outer handler
then absorbs). -/
def call_with_retries (call : String → Nat → Except String String)
    (prompt : String) : Except String String :=
  match call prompt 0 with
  | .ok r => .ok r
  | .error _ =>
    match call prompt 1 with
    | .ok r => .ok r
    | .error _ => call prompt 2

/-- StoryGenerator.generate_story (story_generator.py lines 227-321).
The OpenAI client is modelled as an optional capability mapping (prompt,
call index) to either a response text or a raised exception; `none` is an
unconfigured client.  Attempts 0-2 are the initial retry loop, attempt 3
the single content-validation retry with the stricter prompt.  Every
capability failure after validation is absorbed into the placeholder path;
only validation failure raises. -/
def generate_story (client : Option (String → Nat → Except String String))
    (fresh_id : String) (now : Nat) (request : StoryRequest) :
    Except GenError GeneratedStory :=
  let errors := request.validate
  if !errors.isEmpty then
    .error (GenError.invalid_request errors)
  else
    let magic_tool := request.keywords.getD 0 "wand"
    let adventure_pack := request.keywords.getD 1 "backpack"
    let animal_friend := request.keywords.getD 2 "wolf"
    match client with
    | none =>
      match generate_placeholder_story fresh_id now request with
      | some story => .ok story
      | none => .error (GenError.internal_error "IndexError")
    | some call =>
      let prompt := create_story_prompt request
      match call_with_retries call prompt with
      | .error _ =>
        match generate_placeholder_story fresh_id now request with
        | some story => .ok story
        | none => .error (GenError.internal_error "IndexError")
      | .ok story_text =>
        let parsed := parse_story_response story_text
        let second : Except String (String × String × String) :=
          if validate_story_content parsed.2.1 request then .ok parsed
          else
            (call (prompt ++ "\n\nIMPORTANT: Ensure the story is between 200-400 words and includes all character names prominently.") 3).map
              parse_story_response
        match second with
        | .error _ =>
          match generate_placeholder_story fresh_id now request with
          | some story => .ok story
          | none => .error (GenError.internal_error "IndexError")
        | .ok parsed2 =>
          let title := parsed2.1
          let content := parsed2.2.1
          let moral := parsed2.2.2
          let target_range := request.get_target_word_count_range
          .ok (GeneratedStory.create fresh_id now
            (if title = "" then "Your Amazing Adventure" else title)
            content
            (if moral = "" then "Always be kind and help others." else moral)
            request.characters request.topic request.age_group
            request.story_length target_range none
            magic_tool adventure_pack animal_friend)

end StoryGenerator

/-- The end-to-end scenario request of the spec: Emma (she/her), topic dragons,
keywords wand/backpack/wolf, age band 5-6, medium length. -/
def demo_request : StoryRequest :=
  { characters := [⟨"Emma", "she/her"⟩]
    topic := "dragons"
    keywords := ["wand", "backpack", "wolf"]
    age_group := .a5_6
    story_length := .medium }

/-- The invalid end-to-end scenario of the spec: the same request with four
keywords. -/
def four_keyword_request : StoryRequest :=
  { demo_request with keywords := ["wand", "backpack", "wolf", "dragon"] }

/-- C9: every artifact built by GeneratedStory.create stores word_count
recomputed as len(content.split()) from the final body text (0 when the
content is empty; the factory accepts no word count from the caller), and
stamps the supplied fresh id and creation timestamp. -/
theorem create_recomputes_word_count_and_stamps
    (fresh_id : String) (now : Nat) (title content moral : String)
    (characters : List Character) (topic : String) (age_group : AgeGroup)
    (story_length : StoryLength) (target_word_range : Nat × Nat)
    (image_url : Option String)
    (magic_tool adventure_pack animal_friend : String) :
    (GeneratedStory.create fresh_id now title content moral characters topic
      age_group story_length target_word_range image_url magic_tool
      adventure_pack animal_friend).word_count = wordCount content
    ∧ (GeneratedStory.create fresh_id now title content moral characters
      topic age_group story_length target_word_range image_url magic_tool
      adventure_pack animal_friend).id = fresh_id
    ∧ (GeneratedStory.create fresh_id now title content moral characters
      topic age_group story_length target_word_range image_url magic_tool
      adventure_pack animal_friend).created_at = now := by
  refine ⟨?_, rfl, rfl⟩
  by_cases h : content = ""
  · subst h; rfl
  · simp [GeneratedStory.create, h]

/-- Helper naming for C8: the word-count table entry of an (age band,
length tier) pair, read through a request carrying those fields. -/
def rangeFor (a : AgeGroup) (t : StoryLength) : Nat × Nat :=
  StoryRequest.get_target_word_count_range
    { characters := [], topic := "", keywords := [], age_group := a,
      story_length := t }

/-- C8: every entry of the 4 x 3 word-count table is a (min, max) pair
with min strictly below max, and within a fixed age band both bounds are
non-decreasing across short, medium, long. -/
theorem target_word_count_range_shape (a : AgeGroup) :
    (∀ t : StoryLength, (rangeFor a t).1 < (rangeFor a t).2)
    ∧ (rangeFor a .short).1 ≤ (rangeFor a .medium).1
    ∧ (rangeFor a .medium).1 ≤ (rangeFor a .long).1
    ∧ (rangeFor a .short).2 ≤ (rangeFor a .medium).2
    ∧ (rangeFor a .medium).2 ≤ (rangeFor a .long).2 := by
  cases a <;>
    exact ⟨fun t => by cases t <;> decide, by decide, by decide, by decide,
      by decide⟩

/-- C2: whenever validation collects at least one error, generate_story
raises a ValueError carrying the complete error list, and the result does
not depend on the generation client at all — no generation attempt is
made. -/
theorem generate_story_rejects_invalid (request : StoryRequest)
    (h : request.validate ≠ [])
    (client : Option (String → Nat → Except String String))
    (fresh_id : String) (now : Nat) :
    StoryGenerator.generate_story client fresh_id now request =
      Except.error (GenError.invalid_request request.validate) := by
  have hne : request.validate.isEmpty = false := by
    cases hv : request.validate with
    | nil => exact absurd hv h
    | cons a l => rfl
  simp [StoryGenerator.generate_story, hne]

/-- Witness for C2: the four-keyword scenario of the spec is rejected with its
full error list, whatever the client. -/
theorem generate_story_rejects_invalid_witness :
    StoryGenerator.generate_story none "fresh-id" 0 four_keyword_request =
      Except.error (GenError.invalid_request four_keyword_request.validate) :=
  generate_story_rejects_invalid four_keyword_request (by decide) none
    "fresh-id" 0

/-- C4: validate_name is true exactly when the trimmed name is non-empty
and consists only of ASCII letters and whitespace (the anchored regex
`^[A-Za-z\s]+$`), and construction of a Character whose name fails the
check always raises. -/
theorem validate_name_spec (name pronouns : String) :
    ((Character.mk name pronouns).validate_name = true ↔
      (pyStrip name ≠ "" ∧
        ∀ c ∈ (pyStrip name).data, (c.isAlpha || pyIsSpace c) = true))
    ∧ ((Character.mk name pronouns).validate_name = false →
        ∃ msg, Character.construct name pronouns = Except.error msg) := by
  constructor
  · by_cases h : name = ""
    · subst h
      simp [Character.validate_name, pyStrip, stripL]
    · simp only [Character.validate_name, h, if_false, Bool.and_eq_true,
        Bool.not_eq_true', List.isEmpty_eq_false_iff_exists_mem,
        List.all_eq_true, decide_eq_true_eq]
      constructor
      · rintro ⟨⟨⟨x, hx⟩, hall⟩, _⟩
        refine ⟨?_, hall⟩
        intro hemp
        rw [String.ext_iff] at hemp
        simp at hemp
        rw [hemp] at hx
        exact absurd hx (List.not_mem_nil x)
      · rintro ⟨hne, hall⟩
        have hdata : (pyStrip name).data ≠ [] := by
          intro hd
          exact hne (by rw [String.ext_iff]; simpa using hd)
        rcases List.exists_mem_of_ne_nil _ hdata with ⟨x, hx⟩
        refine ⟨⟨⟨x, hx⟩, hall⟩, ?_⟩
        have hlen : ¬ (pyStrip name).length = 0 := fun h0 =>
          hdata (List.length_eq_zero.mp h0)
        simpa [Nat.pos_iff_ne_zero] using hlen
  · intro hf
    have herr : Character.construct name pronouns =
        Except.error s!"Invalid character name: \x27{name}\x27. Names must contain only letters and spaces." := by
      simp [Character.construct, hf]
    exact ⟨_, herr⟩

/-- Witness for C4: the digit-containing name R2D2 fails validate_name and
its construction raises. -/
theorem validate_name_spec_witness :
    ∃ msg, Character.construct "R2D2" "he/him" = Except.error msg :=
  (validate_name_spec "R2D2" "he/him").2 (by decide)

/-- C3: StoryRequest.validate produces a keyword-count error exactly when
the length of the keyword list is neither 3 nor 5, whatever the other request
fields contain; a list of length 4 therefore always produces one and
lists of length 3 or 5 never do. -/
theorem keyword_count_error_iff (r : StoryRequest) :
    (∃ n, VError.keyword_count n ∈ r.validate) ↔
      (r.keywords.length ≠ 3 ∧ r.keywords.length ≠ 5) := by
  unfold StoryRequest.validate
  constructor
  · rintro ⟨n, hn⟩
    rcases List.mem_append.mp hn with h | h
    · rcases List.mem_append.mp h with h2 | h2
      · rcases List.mem_append.mp h2 with h3 | h3
        · split at h3 <;> simp_all
        · split at h3 <;> simp_all
      · split at h2 <;> simp_all
    · simp only [List.mem_filterMap] at h
      rcases h with ⟨p, _, hp⟩
      split at hp <;> simp_all
  · rintro ⟨h3, h5⟩
    refine ⟨r.keywords.length, ?_⟩
    simp [List.mem_append, h3, h5]

/-- C5: any keyword whose cleaned (lower-cased, stripped) form equals or
contains a banned term as a substring forces validate_keywords to false;
filter_inappropriate_keywords keeps exactly the stripped keywords that are
non-blank and individually pass validate_keywords; and the example
list filters to the expected four survivors. -/
theorem banned_keyword_filtering :
    (∀ keywords : List String, ∀ k ∈ keywords,
      (ContentFilter.inappropriate_keywords.any fun b =>
        isSubstr b (pyStrip (pyLower k))) = true →
      ContentFilter.validate_keywords keywords = false)
    ∧ (∀ keywords : List String,
        ContentFilter.filter_inappropriate_keywords keywords =
          (keywords.map pyStrip).filter fun c =>
            c ≠ "" && ContentFilter.validate_keywords [c])
    ∧ ContentFilter.filter_inappropriate_keywords
        ["happy", "scary", "play", "violent", "friend", "death", "love"] =
        ["happy", "play", "friend", "love"] := by
  refine ⟨?_, ?_, by decide⟩
  · intro keywords k hk hbad
    have hko : ContentFilter.keyword_ok k = false := by
      unfold ContentFilter.keyword_ok
      by_cases hc : pyStrip (pyLower k) = ""
      · exfalso
        rcases List.any_eq_true.mp hbad with ⟨b, hbmem, hbsub⟩
        rw [hc] at hbsub
        have hb0 : b.data = [] := by
          have hbe : b.data.isEmpty = true := hbsub
          simpa [List.isEmpty_iff] using hbe
        have hbempty : b = "" := by
          rw [String.ext_iff]
          simpa using hb0
        rw [hbempty] at hbmem
        exact absurd hbmem (by decide)
      · simp only [hc, if_false]
        split
        · rfl
        · simp [hbad]
    unfold ContentFilter.validate_keywords
    exact List.all_eq_false.mpr ⟨k, hk, by simp [hko]⟩
  · intro keywords
    induction keywords with
    | nil => rfl
    | cons k rest ih =>
      by_cases hg :
          (pyStrip k ≠ "" && ContentFilter.validate_keywords [pyStrip k]) =
            true
      · simp [ContentFilter.filter_inappropriate_keywords, List.filter_cons,
          hg, ih]
      · simp only [Bool.not_eq_true] at hg
        simp [ContentFilter.filter_inappropriate_keywords, List.filter_cons,
          hg, ih]

/-- Witness for C5: the banned keyword scary alone fails the whole-list
check. -/
theorem banned_keyword_filtering_witness :
    ContentFilter.validate_keywords ["scary"] = false :=
  banned_keyword_filtering.1 ["scary"] "scary" (by decide) (by decide)

/-- Dropping a prefix of p-satisfying elements twice is the same as doing
it once. -/
theorem dropWhile_self_idem (p : Char → Bool) (x : List Char) :
    (x.dropWhile p).dropWhile p = x.dropWhile p := by
  rw [List.dropWhile_eq_self_iff]
  intro hl
  exact List.dropWhile_get_zero_not (p := p) x hl

/-- A list already stripped of its leading whitespace keeps that property
after its trailing whitespace is removed as well. -/
theorem dropWhile_rstrip (m : List Char)
    (hm : m.dropWhile pyIsSpace = m) :
    ((m.reverse.dropWhile pyIsSpace).reverse).dropWhile pyIsSpace =
      (m.reverse.dropWhile pyIsSpace).reverse := by
  cases hRc : (m.reverse.dropWhile pyIsSpace).reverse with
  | nil => rfl
  | cons a t =>
    have hpre : (m.reverse.dropWhile pyIsSpace).reverse <+: m := by
      simpa using
        List.reverse_prefix.mpr (List.dropWhile_suffix (l := m.reverse) pyIsSpace)
    rw [hRc] at hpre
    obtain ⟨s, hs⟩ := hpre
    have hm' := hm
    rw [← hs] at hm'
    simp only [List.cons_append] at hm'
    have hpa : pyIsSpace a = false := by
      by_contra hp
      rw [Bool.not_eq_false] at hp
      rw [List.dropWhile_cons, if_pos hp] at hm'
      have hle := List.IsSuffix.length_le
        (List.dropWhile_suffix (l := t ++ s) pyIsSpace)
      rw [hm'] at hle
      simp at hle
    rw [List.dropWhile_cons, if_neg (by simp [hpa])]

/-- Python str.strip is idempotent, character-list version. -/
theorem stripL_idem (l : List Char) : stripL (stripL l) = stripL l := by
  unfold stripL
  rw [dropWhile_rstrip (l.dropWhile pyIsSpace)
      (dropWhile_self_idem pyIsSpace l),
    List.reverse_reverse, dropWhile_self_idem]

/-- Python str.strip is idempotent. -/
theorem pyStrip_idem (s : String) : pyStrip (pyStrip s) = pyStrip s := by
  unfold pyStrip
  exact congrArg String.mk (stripL_idem s.data)

/-- Every output element of filter_inappropriate_keywords is a fixed point
of strip and passes the guard that admitted it. -/
theorem filter_inappropriate_mem (l : List String) (c : String)
    (hc : c ∈ ContentFilter.filter_inappropriate_keywords l) :
    pyStrip c = c ∧
      (c ≠ "" && ContentFilter.validate_keywords [c]) = true := by
  induction l with
  | nil => exact absurd hc (List.not_mem_nil c)
  | cons k rest ih =>
    by_cases hg :
        (pyStrip k ≠ "" && ContentFilter.validate_keywords [pyStrip k]) = true
    · rw [ContentFilter.filter_inappropriate_keywords] at hc
      simp only [hg, if_true] at hc
      rcases List.mem_cons.mp hc with hck | hcr
      · subst hck
        exact ⟨pyStrip_idem k, hg⟩
      · exact ih hcr
    · rw [ContentFilter.filter_inappropriate_keywords] at hc
      simp only [hg, if_false] at hc
      exact ih hc

/-- A list every element of which is stripped, non-blank and individually
valid is left unchanged by filter_inappropriate_keywords. -/
theorem filter_inappropriate_fixed (l : List String)
    (h : ∀ c ∈ l, pyStrip c = c ∧
      (c ≠ "" && ContentFilter.validate_keywords [c]) = true) :
    ContentFilter.filter_inappropriate_keywords l = l := by
  induction l with
  | nil => rfl
  | cons c rest ih =>
    obtain ⟨hfix, hguard⟩ := h c (List.mem_cons_self c rest)
    rw [ContentFilter.filter_inappropriate_keywords]
    simp only [hfix, hguard, if_true]
    exact congrArg (c :: ·) (ih fun x hx => h x (List.mem_cons_of_mem c hx))

/-- C10: filter_inappropriate_keywords is idempotent and its output always
passes the whole-list check validate_keywords. -/
theorem filter_inappropriate_idem_and_valid (keywords : List String) :
    ContentFilter.filter_inappropriate_keywords
        (ContentFilter.filter_inappropriate_keywords keywords) =
      ContentFilter.filter_inappropriate_keywords keywords
    ∧ ContentFilter.validate_keywords
        (ContentFilter.filter_inappropriate_keywords keywords) = true := by
  constructor
  · exact filter_inappropriate_fixed _
      (fun c hc => filter_inappropriate_mem keywords c hc)
  · unfold ContentFilter.validate_keywords
    rw [List.all_eq_true]
    intro c hc
    have hguard := (filter_inappropriate_mem keywords c hc).2
    have hv : ContentFilter.validate_keywords [c] = true := by
      simp only [Bool.and_eq_true] at hguard
      exact hguard.2
    unfold ContentFilter.validate_keywords at hv
    simpa using hv

/-- Lower-casing maps whitespace to whitespace. -/
theorem toLower_space (c : Char) (h : pyIsSpace c = true) :
    pyIsSpace c.toLower = true := by
  unfold pyIsSpace at h
  simp only [Bool.or_eq_true, decide_eq_true_eq] at h
  rcases h with ((((h | h) | h) | h) | h) | h <;> subst h <;> decide

/-- A list whose strip is empty is entirely whitespace. -/
theorem all_space_of_stripL_nil (l : List Char) (h : stripL l = []) :
    ∀ c ∈ l, pyIsSpace c = true := by
  unfold stripL at h
  rw [List.reverse_eq_nil_iff] at h
  intro c hc
  rw [← List.takeWhile_append_dropWhile (p := pyIsSpace) (l := l)] at hc
  rcases List.mem_append.mp hc with h1 | h2
  · exact List.mem_takeWhile_imp h1
  · exact List.dropWhile_eq_nil_iff.mp h c (List.mem_reverse.mpr h2)

/-- Membership transfers along the substring relation. -/
theorem mem_of_isSubLst (n h : List Char) (hs : isSubLst n h = true) :
    ∀ c ∈ n, c ∈ h := by
  induction h with
  | nil =>
    intro c hc
    unfold isSubLst at hs
    rw [List.isEmpty_iff] at hs
    subst hs
    exact absurd hc (List.not_mem_nil c)
  | cons a t ih =>
    intro c hc
    unfold isSubLst at hs
    rcases Bool.or_eq_true _ _ |>.mp hs with hp | hi
    · obtain ⟨s, hsapp⟩ := List.isPrefixOf_iff_prefix.mp hp
      rw [← hsapp]
      exact List.mem_append_left s hc
    · exact List.mem_cons_of_mem a (ih hi c hc)

/-- C6: validate_story_content accepts exactly the texts that are
non-empty, contain no banned term as a substring of their lower-cased
form, match none of the fixed complexity patterns, and contain at least
one positivity word — all four conditions are necessary. -/
theorem validate_story_content_iff (content : String) :
    ContentFilter.validate_story_content content = true ↔
      (content ≠ ""
       ∧ (ContentFilter.inappropriate_keywords.any fun w =>
           isSubstr w (pyLower content)) = false
       ∧ ContentFilter.has_complex_pattern content = false
       ∧ (ContentFilter.positive_words.any fun w =>
           isSubstr w (pyLower content)) = true) := by
  constructor
  · intro h
    by_cases hemp : content = ""
    · simp [ContentFilter.validate_story_content, hemp] at h
    · by_cases hstrip : pyStrip content = ""
      · simp [ContentFilter.validate_story_content, hemp, hstrip] at h
      · by_cases hban : (ContentFilter.inappropriate_keywords.any fun w =>
            isSubstr w (pyLower content)) = true
        · simp [ContentFilter.validate_story_content, hemp, hstrip, hban]
            at h
        · by_cases hcomp : ContentFilter.has_complex_pattern content = true
          · simp [ContentFilter.validate_story_content, hemp, hstrip, hban,
              hcomp] at h
          · by_cases hpos : (ContentFilter.positive_words.any fun w =>
                isSubstr w (pyLower content)) = true
            · exact ⟨hemp, by simpa using hban, by simpa using hcomp, hpos⟩
            · simp [ContentFilter.validate_story_content, hemp, hstrip,
                hban, hcomp, hpos] at h
  · rintro ⟨hne, hban, hcomp, hpos⟩
    have hstrip : ¬ pyStrip content = "" := by
      intro hst
      have hall : ∀ c ∈ content.data, pyIsSpace c = true :=
        all_space_of_stripL_nil content.data (by
          have hd := congrArg String.data hst
          simpa [pyStrip] using hd)
      have hall2 : ∀ c ∈ (pyLower content).data, pyIsSpace c = true := by
        intro c hc
        simp only [pyLower, List.mem_map] at hc
        obtain ⟨d, hd, hdl⟩ := hc
        rw [← hdl]
        exact toLower_space d (hall d hd)
      rcases List.any_eq_true.mp hpos with ⟨w, hw, hsub⟩
      have hws : ∀ c ∈ w.data, pyIsSpace c = true := fun c hc =>
        hall2 c (mem_of_isSubLst w.data (pyLower content).data hsub c hc)
      have hnot : ¬ (∀ c ∈ w.data, pyIsSpace c = true) := by
        fin_cases hw <;> decide
      exact hnot hws
    simp [ContentFilter.validate_story_content, hne, hstrip, hban, hcomp,
      hpos]

/-- The acceptance window described by the spec (section 4.4 step 5): the
target range widened by 20% of its width on each side, with the lower
bound floored at half the target minimum. -/
def flexible_word_range (request : StoryRequest) : Nat × Nat :=
  let range := request.get_target_word_count_range
  let flexibility := (range.2 - range.1) / 5
  (Nat.max (range.1 - flexibility) (range.1 / 2), range.2 + flexibility)

/-- A guarded all-check is true exactly when the guard fails and every
element passes. -/
theorem ite_guard_all_iff (cond : Bool) (l : List Character)
    (f : Character → Bool) :
    (if cond then false else l.all f) = true ↔
      (cond = false ∧ ∀ c ∈ l, f c = true) := by
  cases cond <;> simp [List.all_eq_true]

/-- C7: for a non-empty story, the post-generation check passes exactly
when the word count lies in the widened window of the spec and every character
name appears case-insensitively in the text. -/
theorem story_content_check_iff (story : String) (request : StoryRequest)
    (h : story ≠ "") :
    StoryGenerator.validate_story_content story request = true ↔
      ((flexible_word_range request).1 ≤ wordCount story
       ∧ wordCount story ≤ (flexible_word_range request).2
       ∧ ∀ ch ∈ request.characters,
           isSubstr (pyLower ch.name) (pyLower story) = true) := by
  unfold StoryGenerator.validate_story_content flexible_word_range
  simp only [h, if_false]
  rw [ite_guard_all_iff]
  constructor
  · rintro ⟨hcond, hall⟩
    simp only [Bool.or_eq_false_iff, decide_eq_false_iff_not, Nat.not_lt]
      at hcond
    exact ⟨hcond.1, hcond.2, hall⟩
  · rintro ⟨hA, hB, hall⟩
    refine ⟨?_, hall⟩
    simp only [Bool.or_eq_false_iff, decide_eq_false_iff_not, Nat.not_lt]
    exact ⟨hA, hB⟩

/-- Witness for C7: the short story names Emma but is far below the
5-6/medium window, and the check indeed evaluates accordingly. -/
theorem story_content_check_iff_witness :
    StoryGenerator.validate_story_content "Emma was happy." demo_request =
        true ↔
      ((flexible_word_range demo_request).1 ≤ wordCount "Emma was happy."
       ∧ wordCount "Emma was happy." ≤
           (flexible_word_range demo_request).2
       ∧ ∀ ch ∈ demo_request.characters,
           isSubstr (pyLower ch.name) (pyLower "Emma was happy.") = true) :=
  story_content_check_iff "Emma was happy." demo_request (by decide)

/-- A request with no validation errors has at least one character. -/
theorem validate_nil_characters (r : StoryRequest) (h : r.validate = []) :
    r.characters ≠ [] := by
  intro hc
  unfold StoryRequest.validate at h
  rw [hc] at h
  simp at h

/-- C1: once validation passes, generate_story cannot raise on a missing
or failing generation capability: with no client configured it returns the
deterministic placeholder artifact, and with a client whose every call
raises it returns exactly the same artifact — the fallback path is the
terminal safety net. -/
theorem generate_story_fallback (request : StoryRequest)
    (h : request.validate = []) (fresh_id : String) (now : Nat) :
    (∃ story,
        StoryGenerator.generate_placeholder_story fresh_id now request =
          some story
        ∧ StoryGenerator.generate_story none fresh_id now request =
            Except.ok story)
    ∧ ∀ errf : String → Nat → String,
        StoryGenerator.generate_story
            (some fun p i => Except.error (errf p i)) fresh_id now request =
          StoryGenerator.generate_story none fresh_id now request := by
  have hchars : request.characters ≠ [] := validate_nil_characters request h
  have hplace : ∃ story,
      StoryGenerator.generate_placeholder_story fresh_id now request =
        some story := by
    unfold StoryGenerator.generate_placeholder_story
    cases hc : request.characters with
    | nil => exact absurd hc hchars
    | cons c cs =>
      simp [hc]
  obtain ⟨story, hstory⟩ := hplace
  have hisEmpty : request.validate.isEmpty = true := by rw [h]; rfl
  constructor
  · refine ⟨story, hstory, ?_⟩
    unfold StoryGenerator.generate_story
    simp [hisEmpty, hstory]
  · intro errf
    unfold StoryGenerator.generate_story
    simp [hisEmpty, hstory, StoryGenerator.call_with_retries]

/-- Witness for C1: the valid end-to-end request of the spec yields the
placeholder artifact when no client is configured. -/
theorem generate_story_fallback_witness :
    ∃ story,
      StoryGenerator.generate_placeholder_story "fresh-id" 0 demo_request =
        some story
      ∧ StoryGenerator.generate_story none "fresh-id" 0 demo_request =
          Except.ok story :=
  (generate_story_fallback demo_request (by decide) "fresh-id" 0).1
